import Mathlib

/-!
Verification of the calendar generator (`calendar_generator.py`).

The date model is a shallow embedding of the proleptic Gregorian calendar as
used by Python's `datetime` module: a date is a `(year, month, day)` triple,
`toOrdinal` is `datetime._ymd2ord` (day 1 = 0001-01-01), and `weekday` is
`(toordinal + 6) % 7` with Monday = 0 .. Sunday = 6.
-/

namespace CalendarGen

/-- A calendar date `(year, month, day)`, mirroring `datetime.date`. -/
abbrev Date := Nat × Nat × Nat

/-- Gregorian leap-year rule, mirroring `calendar.isleap`. -/
def isLeap (y : Nat) : Bool :=
  (y % 4 == 0 && y % 100 != 0) || y % 400 == 0

/-- Days in a month, mirroring `calendar.monthrange`'s day count /
`datetime._days_in_month`. -/
def daysInMonth (y m : Nat) : Nat :=
  if m = 2 then (if isLeap y then 29 else 28)
  else if m = 4 ∨ m = 6 ∨ m = 9 ∨ m = 11 then 30
  else 31

/-- Days in year `y` strictly before month `m`, mirroring
`datetime._days_before_month`. -/
def daysBeforeMonth (y m : Nat) : Nat :=
  ((List.range' 1 (m - 1)).map (daysInMonth y)).sum

/-- Days before January 1 of year `y`, mirroring `datetime._days_before_year`. -/
def daysBeforeYear (y : Nat) : Nat :=
  365 * (y - 1) + (y - 1) / 4 - (y - 1) / 100 + (y - 1) / 400

/-- Proleptic Gregorian ordinal of a date, mirroring `datetime.date.toordinal`
(`_ymd2ord`): 0001-01-01 has ordinal 1. -/
def toOrdinal (y m d : Nat) : Nat :=
  daysBeforeYear y + daysBeforeMonth y m + d

/-- `datetime.date.weekday` on a date triple: `(toordinal + 6) % 7`,
Monday = 0 .. Sunday = 6. -/
def weekdayOf (t : Date) : Nat :=
  (toOrdinal t.1 t.2.1 t.2.2 + 6) % 7

/-- `datetime.date.weekday` on explicit components. -/
def pyWeekday (y m d : Nat) : Nat :=
  weekdayOf (y, m, d)

/-- The calendar day following `t` (the semantics of adding one
`datetime.timedelta(days=1)`). -/
def succDate : Date → Date
  | (y, m, d) =>
    if d < daysInMonth y m then (y, m, d + 1)
    else if m < 12 then (y, m + 1, 1)
    else (y + 1, 1, 1)

/-- `t + datetime.timedelta(days=k)`. -/
def addDays (t : Date) (k : Nat) : Date :=
  succDate^[k] t

/-- `(a - b).days` for two dates, mirroring `datetime.date.__sub__`. -/
def dateSubDays (a b : Date) : Int :=
  (toOrdinal a.1 a.2.1 a.2.2 : Int) - (toOrdinal b.1 b.2.1 b.2.2 : Int)

/-- `find_second_monday(year, month)` from the source: day-of-month of the
second Monday, via the offset `(7 - weekday) % 7` to the first Monday and
seven further days. -/
def findSecondMonday (year month : Nat) : Nat :=
  let d : Date := (year, month, 1)
  let offset := (7 - weekdayOf d) % 7
  let firstMonday := addDays d offset
  let secondMonday := addDays firstMonday 7
  secondMonday.2.2

/-- `_interpret_month13(base_year, base_month)` from the source. -/
def interpretMonth13 (baseYear baseMonth : Nat) : Nat × Nat :=
  if baseMonth = 13 then (baseYear + 1, 1) else (baseYear, baseMonth)

/-- `_get_prev_month(year, month)` from the source. -/
def getPrevMonth (year month : Nat) : Nat × Nat :=
  if month = 13 then (year, 12)
  else if month = 1 then (year - 1, 12)
  else (year, month - 1)

/-- `_get_next_month(year, month)` from the source. -/
def getNextMonth (year month : Nat) : Nat × Nat :=
  if month = 12 then (year, 13)
  else if month = 13 then (year + 1, 2)
  else (year, month + 1)

/- ### The week-enumeration routine of `calendar.Calendar(firstweekday=6)` -/

/-- `calendar._prevmonth`. -/
def pyPrevMonth (y m : Nat) : Nat × Nat :=
  if m = 1 then (y - 1, 12) else (y, m - 1)

/-- `calendar._nextmonth`. -/
def pyNextMonth (y m : Nat) : Nat × Nat :=
  if m = 12 then (y + 1, 1) else (y, m + 1)

/-- `calendar.Calendar(firstweekday=6).itermonthdays3(y, m)`: the dates of the
complete Sunday-first weeks covering month `m`, as `(year, month, day)`
triples.  `days_before`/`days_after` use Python's floored `%` on possibly
negative operands, hence `Int.emod`. -/
def itermonthdays3 (y m : Nat) : List Date :=
  let day1 := pyWeekday y m 1
  let ndays := daysInMonth y m
  let daysBefore := (((day1 : Int) - 6).emod 7).toNat
  let daysAfter := (((6 : Int) - (day1 : Int) - (ndays : Int)).emod 7).toNat
  let prev := pyPrevMonth y m
  let pend := daysInMonth prev.1 prev.2 + 1
  let next := pyNextMonth y m
  ((List.range' (pend - daysBefore) daysBefore).map fun d => (prev.1, prev.2, d))
    ++ ((List.range' 1 ndays).map fun d => (y, m, d))
    ++ ((List.range' 1 daysAfter).map fun d => (next.1, next.2, d))

/-- `[d for d in c.itermonthdates(y, m) if d.month == m]` — the filtered day
list used for both the main and the mini grids in `_generate_calendar_svg`
and `_get_mini_calendar`. -/
def monthDays (y m : Nat) : List Date :=
  (itermonthdays3 y m).filter fun t => t.2.1 == m

/- ### Holiday map (Python dict keyed by `(year, month, day)`) -/

/-- The holiday dictionary: association list in insertion order, mirroring a
Python `dict` keyed by `(year, month, day)` triples. -/
abbrev HolidayMap := List (Date × String)

/-- Python `dict[k] = v`: replace in place if the key is present, else append. -/
def dictInsert (d : HolidayMap) (k : Date) (v : String) : HolidayMap :=
  if d.any (fun p => p.1 == k) then
    d.map (fun p => if p.1 == k then (k, v) else p)
  else d ++ [(k, v)]

/-- Python `k in dict`. -/
def hdContains (hd : HolidayMap) (k : Date) : Bool :=
  hd.any fun p => p.1 == k

/-- Python `dict[k]` as an `Option` (first entry with the key). -/
def hdLookup (hd : HolidayMap) (k : Date) : Option String :=
  (hd.find? fun p => p.1 == k).map Prod.snd

/- ### Colorizer (`_get_day_color`, `_get_day_of_week_color`) -/

/-- `_get_day_color(wday_idx, base_ymd, actual_year, actual_month, mini)` from
the source (the `actual_year`/`actual_month` parameters are unused there). -/
def getDayColor (hd : HolidayMap) (wdayIdx : Nat) (baseYmd : Date) (mini : Bool) : String :=
  if hdContains hd baseYmd then "orangered"
  else if wdayIdx == 0 then "orangered"
  else if wdayIdx == 6 then "royalblue"
  else if mini then "darkslategray" else "black"

/-- `_get_day_of_week_color(wday_idx)` from the source. -/
def getDayOfWeekColor (wdayIdx : Nat) : String :=
  if wdayIdx == 0 then "orangered"
  else if wdayIdx == 6 then "royalblue"
  else "black"

/- ### Day grids and page composition (`_generate_calendar_svg`, `_get_mini_calendar`) -/

/-- `convert_sun_start(wk)` from the source: Sunday-first weekday index. -/
def convertSunStart (wk : Nat) : Nat :=
  (wk + 1) % 7

/-- One rendered day cell: day number, column (= Sunday-first weekday index),
row, fill color, and the holiday-name label rendered beneath it (main grid
only; mini grids render no holiday names). -/
structure DayCell where
  day : Nat
  col : Nat
  row : Int
  color : String
  holidayName : Option String
deriving Repr, DecidableEq

/-- The main day grid of `_generate_calendar_svg(month)`: for each date of the
resolved real month, the source computes `wday = convert_sun_start(d.weekday())`,
`offset_days = (d - first).days`, `row = (offset_days + first_wday) // 7`, a
color keyed on the logical `(self.year, month, d.day)`, and a holiday label for
that same logical key. -/
def mainGridCells (hd : HolidayMap) (year month : Nat) : List DayCell :=
  let ap := interpretMonth13 year month
  let firstWday := convertSunStart (pyWeekday ap.1 ap.2 1)
  (monthDays ap.1 ap.2).map fun t =>
    let dday := t.2.2
    let wday := convertSunStart (weekdayOf t)
    let offsetDays := dateSubDays t (ap.1, ap.2, 1)
    let row := Int.fdiv (offsetDays + (firstWday : Int)) 7
    { day := dday
      col := wday
      row := row
      color := getDayColor hd wday (year, month, dday) false
      holidayName :=
        if hdContains hd (year, month, dday) then hdLookup hd (year, month, dday)
        else none }

/-- The mini/preview day grid of `_get_mini_calendar(base_year, base_month, ...)`:
same layout computation, colors keyed on the logical `(base_year, base_month, day)`
with `mini=True`, and no holiday-name labels. -/
def miniGridCells (hd : HolidayMap) (baseYear baseMonth : Nat) : List DayCell :=
  let ap := interpretMonth13 baseYear baseMonth
  let firstWday := convertSunStart (pyWeekday ap.1 ap.2 1)
  (monthDays ap.1 ap.2).map fun t =>
    let dday := t.2.2
    let wday := convertSunStart (weekdayOf t)
    let offsetDays := dateSubDays t (ap.1, ap.2, 1)
    let row := Int.fdiv (offsetDays + (firstWday : Int)) 7
    { day := dday
      col := wday
      row := row
      color := getDayColor hd wday (baseYear, baseMonth, dday) true
      holidayName := none }

/-- Python `f"{n:02d}"` for the values used here (all below 100). -/
def pad2 (n : Nat) : String :=
  if n < 10 then "0" ++ toString n else toString n

/-- The semantic content of one SVG page produced by
`_generate_calendar_svg(month)`: resolved real year/month, the referenced
image filename, the large month label, the main grid, and the two mini
calendars with their (resolved real) month labels. -/
structure CalendarPage where
  actualYear : Nat
  actualMonth : Nat
  jpgFilename : String
  monthLabel : Nat
  mainCells : List DayCell
  prevMiniLabel : Nat
  prevMiniCells : List DayCell
  nextMiniLabel : Nat
  nextMiniCells : List DayCell

/-- `_generate_calendar_svg(month)` for a generator constructed with
`self.year = year` and `self.holiday_dict = hd`. -/
def generateCalendarPage (hd : HolidayMap) (year month : Nat) : CalendarPage :=
  let ap := interpretMonth13 year month
  let yymm :=
    if month = 13 then pad2 ((year + 1) % 100) ++ "01"
    else pad2 (year % 100) ++ pad2 month
  let pv := getPrevMonth year month
  let nx := getNextMonth year month
  { actualYear := ap.1
    actualMonth := ap.2
    jpgFilename := yymm ++ ".jpg"
    monthLabel := month
    mainCells := mainGridCells hd year month
    prevMiniLabel := (interpretMonth13 pv.1 pv.2).2
    prevMiniCells := miniGridCells hd pv.1 pv.2
    nextMiniLabel := (interpretMonth13 nx.1 nx.2).2
    nextMiniCells := miniGridCells hd nx.1 nx.2 }

/- ### Holiday resolver (`get_japanese_holidays_from_web`) -/

/-- Python `s.split("-")` on a char list (single-character separator,
no maxsplit). -/
def splitOnDash : List Char → List (List Char)
  | [] => [[]]
  | a :: as =>
      if a == '-' then [] :: splitOnDash as
      else
        match splitOnDash as with
        | [] => [[a]]
        | h :: t => (a :: h) :: t

/-- Accumulator loop for decimal parsing. -/
def pyIntAux : Nat → List Char → Option Nat
  | acc, [] => some acc
  | acc, c :: cs =>
      if c.isDigit then pyIntAux (acc * 10 + (c.toNat - 48)) cs else none

/-- Python `int(s)` on the digit strings occurring in ISO dates (`none`
models the `ValueError` on empty or non-digit input). -/
def pyInt : List Char → Option Nat
  | [] => none
  | c :: cs => pyIntAux 0 (c :: cs)

/-- Parse `"YYYY-MM-DD"` as Python's
`y, m, d = date_str.split("-"); int(y), int(m), int(d)`; `none` models the
exception raised on a malformed string. -/
def parseDateStr (s : String) : Option Date :=
  match splitOnDash s.data with
  | [ys, ms, ds] =>
      match pyInt ys, pyInt ms, pyInt ds with
      | some y, some m, some d => some (y, m, d)
      | _, _, _ => none
  | _ => none

/-- Auxiliary for substring containment: `needle` begins `hay`. -/
def listStartsWith : List Char → List Char → Bool
  | [], _ => true
  | _ :: _, [] => false
  | a :: as, b :: bs => a == b && listStartsWith as bs

/-- Substring containment on char lists. -/
def listHasSub (needle : List Char) : List Char → Bool
  | [] => needle.isEmpty
  | b :: bs => listStartsWith needle (b :: bs) || listHasSub needle bs

/-- Python `needle in hay` for strings. -/
def strHasSub (needle hay : String) : Bool :=
  listHasSub needle.data hay.data

/-- The first loop of `get_japanese_holidays_from_web`: fold the fetched
payload (in iteration order) into the dictionary, keeping entries whose year
equals `base_year` and normalizing substitute-holiday names; `none` models the
exception on an unparseable date string. -/
def buildFetched (baseYear : Nat) : HolidayMap → List (String × String) → Option HolidayMap
  | acc, [] => some acc
  | acc, e :: es =>
      (parseDateStr e.1).bind fun ymd =>
        if ymd.1 = baseYear then
          buildFetched baseYear
            (dictInsert acc ymd (if strHasSub "振替休日" e.2 then "振替休日" else e.2)) es
        else buildFetched baseYear acc es

/-- `get_japanese_holidays_from_web(base_year)` with the fetched JSON payload
made explicit as an association list (a Python dict in iteration order). -/
def getJapaneseHolidaysFromWeb (allData : List (String × String)) (baseYear : Nat) :
    Option HolidayMap :=
  match buildFetched baseYear [] allData with
  | none => none
  | some hd0 =>
      let hd1 := dictInsert hd0 (baseYear, 13, 1) "元日"
      let secondMonDay := findSecondMonday (baseYear + 1) 1
      some (dictInsert hd1 (baseYear, 13, secondMonDay) "成人の日")

/- ### Batch run (`save_calendar_svgs`) -/

/-- `save_calendar_svgs(output_dir)`: the sequence of `(filename, month)`
pairs written, in order.  The loop header is `for m in range(1, 13)`, i.e.
`m = 1 .. 12`. -/
def saveCalendarSvgs (year : Nat) : List (String × Nat) :=
  (List.range' 1 12).map fun m =>
    let yymm :=
      if m < 13 then pad2 (year % 100) ++ pad2 m
      else pad2 ((year + 1) % 100) ++ "01"
    (yymm ++ ".svg", m)

/- ### Basic lemmas about the date model -/

theorem daysInMonth_ge_28 (y m : Nat) : 28 ≤ daysInMonth y m := by
  unfold daysInMonth
  split
  · split <;> omega
  · split <;> omega

theorem succDate_of_lt (y m d : Nat) (h : d < daysInMonth y m) :
    succDate (y, m, d) = (y, m, d + 1) := by
  simp [succDate, h]

theorem addDays_within (y m : Nat) :
    ∀ (k d : Nat), d + k ≤ daysInMonth y m → addDays (y, m, d) k = (y, m, d + k) := by
  intro k
  induction k with
  | zero => intro d _; simp [addDays]
  | succ n ih =>
      intro d h
      have hd : d < daysInMonth y m := by omega
      have : addDays (y, m, d) (n + 1) = addDays (succDate (y, m, d)) n := by
        simp [addDays, Function.iterate_succ_apply]
      rw [this, succDate_of_lt y m d hd, ih (d + 1) (by omega)]
      rw [show d + 1 + n = d + (n + 1) from by omega]

theorem findSecondMonday_eq (y m : Nat) :
    findSecondMonday y m = 8 + (7 - pyWeekday y m 1) % 7 := by
  have hw : (7 - weekdayOf (y, m, 1)) % 7 < 7 := Nat.mod_lt _ (by omega)
  have h28 := daysInMonth_ge_28 y m
  show (addDays (addDays (y, m, 1) ((7 - weekdayOf (y, m, 1)) % 7)) 7).2.2
      = 8 + (7 - pyWeekday y m 1) % 7
  rw [addDays_within y m _ 1 (by omega)]
  rw [addDays_within y m 7 _ (by omega)]
  simp [pyWeekday]
  omega

/- ### Lemmas about the week enumeration -/

theorem prevMonth_snd_ne (y m : Nat) (h1 : 1 ≤ m) (h2 : m ≤ 12) :
    ((pyPrevMonth y m).2 == m) = false := by
  rw [beq_eq_false_iff_ne]
  unfold pyPrevMonth
  split <;> simp <;> omega

theorem nextMonth_snd_ne (y m : Nat) (h1 : 1 ≤ m) (h2 : m ≤ 12) :
    ((pyNextMonth y m).2 == m) = false := by
  rw [beq_eq_false_iff_ne]
  unfold pyNextMonth
  split <;> simp <;> omega

/-- The filtered day list is exactly the days `1 .. daysInMonth y m` of the
requested month, in ascending order. -/
theorem monthDays_eq (y m : Nat) (h1 : 1 ≤ m) (h2 : m ≤ 12) :
    monthDays y m = (List.range' 1 (daysInMonth y m)).map fun d => (y, m, d) := by
  have hp := prevMonth_snd_ne y m h1 h2
  have hn := nextMonth_snd_ne y m h1 h2
  simp only [monthDays, itermonthdays3, List.filter_append, List.filter_map]
  simp only [Function.comp_def]
  simp [hp, hn]

/-- `mainGridCells` with its `let` bindings spelled out. -/
theorem mainGridCells_def (hd : HolidayMap) (y m : Nat) :
    mainGridCells hd y m =
      (monthDays (interpretMonth13 y m).1 (interpretMonth13 y m).2).map fun t =>
        { day := t.2.2
          col := convertSunStart (weekdayOf t)
          row := Int.fdiv
              (dateSubDays t ((interpretMonth13 y m).1, (interpretMonth13 y m).2, 1) +
                (convertSunStart (pyWeekday (interpretMonth13 y m).1 (interpretMonth13 y m).2 1) : Int)) 7
          color := getDayColor hd (convertSunStart (weekdayOf t)) (y, m, t.2.2) false
          holidayName :=
            if hdContains hd (y, m, t.2.2) then hdLookup hd (y, m, t.2.2) else none } :=
  rfl

/-- `miniGridCells` with its `let` bindings spelled out. -/
theorem miniGridCells_def (hd : HolidayMap) (b bm : Nat) :
    miniGridCells hd b bm =
      (monthDays (interpretMonth13 b bm).1 (interpretMonth13 b bm).2).map fun t =>
        { day := t.2.2
          col := convertSunStart (weekdayOf t)
          row := Int.fdiv
              (dateSubDays t ((interpretMonth13 b bm).1, (interpretMonth13 b bm).2, 1) +
                (convertSunStart (pyWeekday (interpretMonth13 b bm).1 (interpretMonth13 b bm).2 1) : Int)) 7
          color := getDayColor hd (convertSunStart (weekdayOf t)) (b, bm, t.2.2) true
          holidayName := none } :=
  rfl

theorem interpretMonth13_snd_bounds (y m : Nat) (h1 : 1 ≤ m) (h2 : m ≤ 13) :
    1 ≤ (interpretMonth13 y m).2 ∧ (interpretMonth13 y m).2 ≤ 12 := by
  unfold interpretMonth13
  split <;> simp <;> omega

theorem fdiv_cast_seven (n : Nat) :
    Int.fdiv ((n : Nat) : Int) 7 = ((n / 7 : Nat) : Int) :=
  (Int.ofNat_fdiv n 7).symm

theorem dateSubDays_same_month (y m d : Nat) :
    dateSubDays (y, m, d) (y, m, 1) = (d : Int) - 1 := by
  simp only [dateSubDays, toOrdinal]
  push_cast
  ring

/-- C3: for every valid logical input `(y, m)` with `m ∈ 1..13`, the main day
grid enumerates exactly the dates of the resolved real month — one cell per
day, `daysInMonth` many (standard Gregorian rules), in ascending order, with
adjacent-month dates excluded — and the `k`-th cell (day `k+1`) has column
`(pyWeekday + 1) % 7` (Sunday-first index) and row
`(offset-from-first + first day's Sunday-first index) / 7`. -/
theorem mainGrid_enumerates_real_month (hd : HolidayMap) (y m : Nat)
    (h1 : 1 ≤ m) (h2 : m ≤ 13) :
    (mainGridCells hd y m).length =
      daysInMonth (interpretMonth13 y m).1 (interpretMonth13 y m).2 ∧
    ∀ (k : Nat) (hk : k < (mainGridCells hd y m).length),
      ((mainGridCells hd y m).get ⟨k, hk⟩).day = k + 1 ∧
      ((mainGridCells hd y m).get ⟨k, hk⟩).col =
        (pyWeekday (interpretMonth13 y m).1 (interpretMonth13 y m).2 (k + 1) + 1) % 7 ∧
      ((mainGridCells hd y m).get ⟨k, hk⟩).row =
        (((k + (pyWeekday (interpretMonth13 y m).1 (interpretMonth13 y m).2 1 + 1) % 7) / 7 : Nat) : Int) := by
  obtain ⟨hb1, hb2⟩ := interpretMonth13_snd_bounds y m h1 h2
  have hmd := monthDays_eq (interpretMonth13 y m).1 (interpretMonth13 y m).2 hb1 hb2
  rw [mainGridCells_def, hmd, List.map_map]
  constructor
  · simp
  · intro k hk
    simp only [List.get_eq_getElem, List.getElem_map, List.getElem_range',
      Function.comp_apply]
    simp only [show 1 + 1 * k = k + 1 from by omega]
    refine ⟨trivial, by simp [convertSunStart, pyWeekday], ?_⟩
    have hc : ∀ c : Nat, ((k + 1 : Nat) : Int) - 1 + ((c : Nat) : Int) = (((k + c : Nat)) : Int) := by
      intro c; push_cast; ring
    show Int.fdiv (dateSubDays _ _ + _) 7 = _
    rw [dateSubDays_same_month, hc, fdiv_cast_seven]
    simp [convertSunStart]

/-- C3 witness: the grid of logical month 13 of 2026 (= January 2027). -/
theorem mainGrid_enumerates_real_month_witness :
    (mainGridCells [] 2026 13).length = daysInMonth 2027 1 :=
  (mainGrid_enumerates_real_month [] 2026 13 (by decide) (by decide)).1

/-- C6: the Month Interpreter is total and stateless (a plain function),
maps `(y, 13)` to `(y+1, 1)`, fixes `(y, m)` for `m ∈ 1..12`, and is
idempotent on every input. -/
theorem interpretMonth13_total_idempotent :
    (∀ y : Nat, interpretMonth13 y 13 = (y + 1, 1)) ∧
    (∀ y m : Nat, 1 ≤ m → m ≤ 12 → interpretMonth13 y m = (y, m)) ∧
    (∀ y m : Nat,
      interpretMonth13 (interpretMonth13 y m).1 (interpretMonth13 y m).2 =
        interpretMonth13 y m) := by
  refine ⟨fun y => rfl, fun y m hm1 hm2 => ?_, fun y m => ?_⟩
  · unfold interpretMonth13
    rw [if_neg (by omega)]
  · by_cases h : m = 13 <;> simp [interpretMonth13, h]

/-- C6 witness: concrete instances of the interpreter equations. -/
theorem interpretMonth13_total_idempotent_witness :
    interpretMonth13 2026 13 = (2027, 1) ∧ interpretMonth13 2026 5 = (2026, 5) ∧
    interpretMonth13 (interpretMonth13 2026 13).1 (interpretMonth13 2026 13).2 =
      interpretMonth13 2026 13 :=
  ⟨interpretMonth13_total_idempotent.1 2026,
   interpretMonth13_total_idempotent.2.1 2026 5 (by decide) (by decide),
   interpretMonth13_total_idempotent.2.2 2026 13⟩

/-- C2 counterexample: at `(y, m) = (2026, 13)` the claimed roundtrip fails:
`next(2026, 13) = (2027, 2)` and `prev(2027, 2) = (2027, 1) ≠ (2026, 13)`. -/
theorem prevNext_roundtrip_counterexample :
    getNextMonth 2026 13 = (2027, 2) ∧
    getPrevMonth (getNextMonth 2026 13).1 (getNextMonth 2026 13).2 = (2027, 1) ∧
    ((((2027 : Nat), (1 : Nat)) : Nat × Nat) == (((2026 : Nat), (13 : Nat)) : Nat × Nat))
      = false := by
  decide

/-- C2 (amended): `previous_logical_month (next_logical_month (y, m)) = (y, m)`
holds for every year `y` and every `m ∈ 1..12`, but not at `m = 13`, where the
roundtrip instead yields `(y + 1, 1)`. -/
theorem prevNext_roundtrip_amended :
    (∀ y m : Nat, 1 ≤ m → m ≤ 12 →
      getPrevMonth (getNextMonth y m).1 (getNextMonth y m).2 = (y, m)) ∧
    (∀ y : Nat, getPrevMonth (getNextMonth y 13).1 (getNextMonth y 13).2 = (y + 1, 1)) := by
  constructor
  · intro y m hm1 hm2
    by_cases h12 : m = 12
    · subst h12
      simp [getNextMonth, getPrevMonth]
    · have hns : getNextMonth y m = (y, m + 1) := by
        unfold getNextMonth
        rw [if_neg h12, if_neg (by omega)]
      rw [hns]
      unfold getPrevMonth
      rw [if_neg (by omega), if_neg (by omega)]
      simp
  · intro y
    simp [getNextMonth, getPrevMonth]

/-- C2 witness: the amended roundtrip at `(2026, 12)` and at `(2026, 13)`. -/
theorem prevNext_roundtrip_amended_witness :
    getPrevMonth (getNextMonth 2026 12).1 (getNextMonth 2026 12).2 = (2026, 12) ∧
    getPrevMonth (getNextMonth 2026 13).1 (getNextMonth 2026 13).2 = (2027, 1) :=
  ⟨prevNext_roundtrip_amended.1 2026 12 (by decide) (by decide),
   prevNext_roundtrip_amended.2 2026⟩

/-- C7: `find_second_monday` returns the day-of-month of the second Monday of
the month: the returned day is a Monday, lies in `8..14` (hence inside the
month), the day one week earlier is the only earlier Monday, and the concrete
value for January 2027 is 11. -/
theorem findSecondMonday_is_second_monday :
    (∀ y m : Nat, 1 ≤ m → m ≤ 12 →
      pyWeekday y m (findSecondMonday y m) = 0 ∧
      8 ≤ findSecondMonday y m ∧ findSecondMonday y m ≤ 14 ∧
      findSecondMonday y m ≤ daysInMonth y m ∧
      pyWeekday y m (findSecondMonday y m - 7) = 0 ∧
      (∀ e : Nat, 1 ≤ e → e < findSecondMonday y m → pyWeekday y m e = 0 →
        e = findSecondMonday y m - 7)) ∧
    findSecondMonday 2027 1 = 11 := by
  constructor
  · intro y m hm1 hm2
    have h28 := daysInMonth_ge_28 y m
    rw [findSecondMonday_eq]
    simp only [pyWeekday, weekdayOf, toOrdinal]
    generalize daysBeforeYear y + daysBeforeMonth y m = B
    refine ⟨by omega, by omega, by omega, by omega, by omega, ?_⟩
    intro e he1 he2 he3
    omega
  · decide

/-- C7 witness: the general statement instantiated at (2027, 1). -/
theorem findSecondMonday_is_second_monday_witness :
    pyWeekday 2027 1 (findSecondMonday 2027 1) = 0 ∧ findSecondMonday 2027 1 = 11 :=
  ⟨(findSecondMonday_is_second_monday.1 2027 1 (by decide) (by decide)).1,
   findSecondMonday_is_second_monday.2⟩

/-- C4: per-cell colors are decided in priority order (holiday key in map →
orangered; Sunday → orangered; Saturday → royalblue; otherwise darkslategray
for mini grids and black for the main grid), and both the main grid and the
mini grids key the holiday lookup on the logical `(year, month, day)` triple —
including month 13 — never on the resolved real month. -/
theorem dayColor_priority_logical_key :
    (∀ (hd : HolidayMap) (w : Nat) (k : Date) (mini : Bool),
      (hdContains hd k = true → getDayColor hd w k mini = "orangered") ∧
      (hdContains hd k = false → w = 0 → getDayColor hd w k mini = "orangered") ∧
      (hdContains hd k = false → w ≠ 0 → w = 6 → getDayColor hd w k mini = "royalblue") ∧
      (hdContains hd k = false → w ≠ 0 → w ≠ 6 → mini = true →
        getDayColor hd w k mini = "darkslategray") ∧
      (hdContains hd k = false → w ≠ 0 → w ≠ 6 → mini = false →
        getDayColor hd w k mini = "black")) ∧
    (∀ (hd : HolidayMap) (y m : Nat) (c : DayCell), c ∈ mainGridCells hd y m →
      c.color = getDayColor hd c.col (y, m, c.day) false) ∧
    (∀ (hd : HolidayMap) (b bm : Nat) (c : DayCell), c ∈ miniGridCells hd b bm →
      c.color = getDayColor hd c.col (b, bm, c.day) true) := by
  refine ⟨?_, ?_, ?_⟩
  · intro hd w k mini
    refine ⟨fun h => by simp [getDayColor, h],
      fun h hw => by simp [getDayColor, h, hw],
      fun h hw h6 => by simp [getDayColor, h, hw, h6],
      fun h hw h6 hm => by simp [getDayColor, h, hw, h6, hm],
      fun h hw h6 hm => by simp [getDayColor, h, hw, h6, hm]⟩
  · intro hd y m c hc
    rw [mainGridCells_def] at hc
    obtain ⟨t, ht, rfl⟩ := List.mem_map.1 hc
    rfl
  · intro hd b bm c hc
    rw [miniGridCells_def] at hc
    obtain ⟨t, ht, rfl⟩ := List.mem_map.1 hc
    rfl

/-- C4 witness: a Saturday entry that is in the holiday map is orangered (the
holiday rule wins over the weekday rule), with a month-13 logical key. -/
theorem dayColor_priority_logical_key_witness :
    hdContains [(((2026 : Nat), (13 : Nat), (11 : Nat)), "成人の日")] (2026, 13, 11) = true ∧
    getDayColor [(((2026 : Nat), (13 : Nat), (11 : Nat)), "成人の日")] 6 (2026, 13, 11) false
      = "orangered" :=
  ⟨by decide, (dayColor_priority_logical_key.1 _ 6 _ false).1 (by decide)⟩

/- ### Lemmas about the holiday dictionary and resolver -/

theorem dictInsert_keyPred (P : Date → Prop) (d : HolidayMap) (k : Date) (v : String)
    (hall : ∀ p ∈ d, P p.1) (hk : P k) :
    ∀ p ∈ dictInsert d k v, P p.1 := by
  intro p hp
  unfold dictInsert at hp
  split at hp
  · obtain ⟨q, hq, hqe⟩ := List.mem_map.1 hp
    by_cases hb : (q.1 == k) = true
    · simp only [hb, if_true] at hqe
      rw [← hqe]
      exact hk
    · have hb2 : (q.1 == k) = false := by
        revert hb
        cases q.1 == k <;> simp
      simp only [hb2, Bool.false_eq_true, if_false] at hqe
      rw [← hqe]
      exact hall q hq
  · rcases List.mem_append.1 hp with h1 | h1
    · exact hall p h1
    · simp only [List.mem_singleton] at h1
      rw [h1]
      exact hk

theorem dictInsert_not_mem_eq (d : HolidayMap) (k : Date) (v : String)
    (h : d.any (fun p => p.1 == k) = false) :
    dictInsert d k v = d ++ [(k, v)] := by
  unfold dictInsert
  simp [h]

theorem any_key_eq_false (d : HolidayMap) (k : Date)
    (h : ∀ p ∈ d, p.1 ≠ k) : d.any (fun p => p.1 == k) = false := by
  rw [List.any_eq_false]
  intro p hp
  simp [h p hp]

theorem buildFetched_cons (b : Nat) (acc : HolidayMap) (e : String × String)
    (es : List (String × String)) :
    buildFetched b acc (e :: es) =
      (parseDateStr e.1).bind fun ymd =>
        if ymd.1 = b then
          buildFetched b
            (dictInsert acc ymd (if strHasSub "振替休日" e.2 then "振替休日" else e.2)) es
        else buildFetched b acc es := rfl

theorem buildFetched_keyYear (b : Nat) :
    ∀ (es : List (String × String)) (acc hd0 : HolidayMap),
      (∀ p ∈ acc, p.1.1 = b) → buildFetched b acc es = some hd0 →
      ∀ p ∈ hd0, p.1.1 = b := by
  intro es
  induction es with
  | nil =>
      intro acc hd0 hacc heq
      simp only [buildFetched, Option.some.injEq] at heq
      rw [← heq]
      exact hacc
  | cons e es ih =>
      intro acc hd0 hacc heq
      rw [buildFetched_cons] at heq
      cases hpe : parseDateStr e.1 with
      | none =>
          rw [hpe] at heq
          exact Option.noConfusion heq
      | some ymd =>
          rw [hpe, Option.some_bind] at heq
          by_cases hy : ymd.1 = b
          · rw [if_pos hy] at heq
            exact ih _ hd0 (dictInsert_keyPred (fun q => q.1 = b) acc ymd _ hacc hy) heq
          · rw [if_neg hy] at heq
            exact ih _ hd0 hacc heq

theorem buildFetched_months (b : Nat) :
    ∀ (es : List (String × String)) (acc : HolidayMap),
      (∀ e ∈ es, ∃ y m d, parseDateStr e.1 = some (y, m, d) ∧ 1 ≤ m ∧ m ≤ 12) →
      (∀ p ∈ acc, p.1.2.1 ≤ 12) →
      ∃ hd0, buildFetched b acc es = some hd0 ∧ ∀ p ∈ hd0, p.1.2.1 ≤ 12 := by
  intro es
  induction es with
  | nil =>
      intro acc hes hacc
      exact ⟨acc, rfl, hacc⟩
  | cons e es ih =>
      intro acc hes hacc
      obtain ⟨y, m, d, hpe, hm1, hm2⟩ := hes e (List.mem_cons_self e es)
      rw [buildFetched_cons, hpe, Option.some_bind]
      by_cases hy : ((y, m, d) : Date).1 = b
      · rw [if_pos hy]
        exact ih _ (fun q hq => hes q (List.mem_cons_of_mem e hq))
          (dictInsert_keyPred (fun q => q.2.1 ≤ 12) acc (y, m, d) _ hacc (by simpa using hm2))
      · rw [if_neg hy]
        exact ih _ (fun q hq => hes q (List.mem_cons_of_mem e hq)) hacc

theorem getJapaneseHolidaysFromWeb_eq (payload : List (String × String)) (b : Nat)
    (hd0 : HolidayMap) (h : buildFetched b [] payload = some hd0) :
    getJapaneseHolidaysFromWeb payload b =
      some (dictInsert (dictInsert hd0 (b, 13, 1) "元日")
        (b, 13, findSecondMonday (b + 1) 1) "成人の日") := by
  unfold getJapaneseHolidaysFromWeb
  rw [h]

/-- C5: on the fixed payload, the resolver yields exactly the two fetched
2026 entries (the substitute-holiday name kept canonical, since the name
contains the substitute-holiday substring), plus the synthetic month-13
entries: day 1 → 元日 and day 11 → 成人の日, 11 being the second Monday of
January 2027. -/
theorem holidayResolver_concrete_payload :
    getJapaneseHolidaysFromWeb [("2026-01-01", "元日"), ("2026-01-12", "振替休日")] 2026 =
      some [((2026, 1, 1), "元日"), ((2026, 1, 12), "振替休日"),
        ((2026, 13, 1), "元日"), ((2026, 13, 11), "成人の日")] ∧
    strHasSub "振替休日" "振替休日" = true ∧
    findSecondMonday 2027 1 = 11 := by
  decide

/-- C9: for any payload whose keys parse as dates with month in 1..12, the
resolver succeeds and its month-13 entries are exactly the two synthetic
ones: `(base, 13, 1) → 元日` and `(base, 13, second Monday of January of
base+1) → 成人の日`. -/
theorem holidayMap_month13_exactly_synthetic
    (payload : List (String × String)) (b : Nat)
    (hpl : ∀ e ∈ payload, ∃ y m d, parseDateStr e.1 = some (y, m, d) ∧ 1 ≤ m ∧ m ≤ 12) :
    ∃ hd, getJapaneseHolidaysFromWeb payload b = some hd ∧
      hd.filter (fun p => p.1.2.1 == 13) =
        [((b, 13, 1), "元日"), ((b, 13, findSecondMonday (b + 1) 1), "成人の日")] := by
  obtain ⟨hd0, hbf, hmo⟩ := buildFetched_months b payload [] hpl (by simp)
  have hsm8 : 8 ≤ findSecondMonday (b + 1) 1 := by
    rw [findSecondMonday_eq]
    omega
  have hne1 : ∀ p ∈ hd0, p.1 ≠ ((b, 13, 1) : Date) := by
    intro p hp he
    have h13 := hmo p hp
    rw [he] at h13
    simp at h13
  have i1 : dictInsert hd0 (b, 13, 1) "元日" = hd0 ++ [((b, 13, 1), "元日")] :=
    dictInsert_not_mem_eq _ _ _ (any_key_eq_false _ _ hne1)
  have hne2 : ∀ p ∈ hd0 ++ [((b, 13, 1), "元日")],
      p.1 ≠ ((b, 13, findSecondMonday (b + 1) 1) : Date) := by
    intro p hp he
    rcases List.mem_append.1 hp with h1 | h1
    · have h13 := hmo p h1
      rw [he] at h13
      simp at h13
    · simp only [List.mem_singleton] at h1
      rw [h1] at he
      simp only [Prod.mk.injEq] at he
      omega
  have i2 : dictInsert (hd0 ++ [((b, 13, 1), "元日")])
        (b, 13, findSecondMonday (b + 1) 1) "成人の日"
      = hd0 ++ [((b, 13, 1), "元日")]
        ++ [((b, 13, findSecondMonday (b + 1) 1), "成人の日")] :=
    dictInsert_not_mem_eq _ _ _ (any_key_eq_false _ _ hne2)
  have hf0 : hd0.filter (fun p => p.1.2.1 == 13) = [] := by
    rw [List.filter_eq_nil]
    intro p hp
    have := hmo p hp
    simp only [beq_iff_eq]
    omega
  refine ⟨hd0 ++ [((b, 13, 1), "元日")]
      ++ [((b, 13, findSecondMonday (b + 1) 1), "成人の日")], ?_, ?_⟩
  · rw [getJapaneseHolidaysFromWeb_eq payload b hd0 hbf, i1, i2]
  · rw [List.filter_append, List.filter_append, hf0]
    simp

/-- C9 witness: the empty payload at base year 2026. -/
theorem holidayMap_month13_exactly_synthetic_witness :
    ∃ hd, getJapaneseHolidaysFromWeb [] 2026 = some hd ∧
      hd.filter (fun p => p.1.2.1 == 13) =
        [((2026, 13, 1), "元日"), ((2026, 13, findSecondMonday 2027 1), "成人の日")] :=
  holidayMap_month13_exactly_synthetic [] 2026 (by simp)

/-- C10: every key of a successfully built holiday map carries the
construction base year (fetched entries are filtered on it and both synthetic
month-13 entries are keyed under it), so a lookup whose year differs from the
base year always misses. -/
theorem holidayMap_keys_base_year (payload : List (String × String)) (b : Nat)
    (hd : HolidayMap) (h : getJapaneseHolidaysFromWeb payload b = some hd) :
    (∀ p ∈ hd, p.1.1 = b) ∧
    (∀ k : Date, k.1 ≠ b → hdContains hd k = false ∧ hdLookup hd k = none) := by
  have hex : ∃ hd0, buildFetched b [] payload = some hd0 := by
    unfold getJapaneseHolidaysFromWeb at h
    cases hbf : buildFetched b [] payload with
    | none =>
        rw [hbf] at h
        exact Option.noConfusion h
    | some hd0 => exact ⟨hd0, rfl⟩
  obtain ⟨hd0, hbf⟩ := hex
  have hy0 : ∀ p ∈ hd0, p.1.1 = b := buildFetched_keyYear b payload [] hd0 (by simp) hbf
  have hdef := getJapaneseHolidaysFromWeb_eq payload b hd0 hbf
  rw [hdef, Option.some.injEq] at h
  have hy1 : ∀ p ∈ dictInsert hd0 (b, 13, 1) "元日", p.1.1 = b :=
    dictInsert_keyPred (fun q => q.1 = b) hd0 _ _ hy0 rfl
  have hy2 : ∀ p ∈ hd, p.1.1 = b := by
    rw [← h]
    exact dictInsert_keyPred (fun q => q.1 = b) _ _ _ hy1 rfl
  refine ⟨hy2, fun k hk => ?_⟩
  have hne : ∀ p ∈ hd, p.1 ≠ k := fun p hp he => hk (he ▸ hy2 p hp)
  refine ⟨any_key_eq_false _ _ hne, ?_⟩
  unfold hdLookup
  rw [List.find?_eq_none.mpr (fun p hp => by simp [hne p hp])]
  rfl

/-- C10 witness: the map built from the empty payload at base 2026 misses a
2027-keyed lookup. -/
theorem holidayMap_keys_base_year_witness :
    hdContains [(((2026 : Nat), (13 : Nat), (1 : Nat)), "元日"),
      (((2026 : Nat), (13 : Nat), (11 : Nat)), "成人の日")]
      ((2027 : Nat), (1 : Nat), (1 : Nat)) = false :=
  ((holidayMap_keys_base_year [] 2026
      [((2026, 13, 1), "元日"), ((2026, 13, 11), "成人の日")] (by decide)).2
    (2027, 1, 1) (by decide)).1

/-- C1 (code-bug evidence): the batch loop `for m in range(1, 13)` iterates
logical months 1..12 only, so for target year 2026 the files written are
2601.svg .. 2612.svg; no page for logical month 13 is generated and 2701.svg
is never written (the `m == 13` filename branch in the loop body is dead). -/
theorem saveCalendarSvgs_2026_no_month13 :
    (saveCalendarSvgs 2026).map Prod.fst =
      ["2601.svg", "2602.svg", "2603.svg", "2604.svg", "2605.svg", "2606.svg",
       "2607.svg", "2608.svg", "2609.svg", "2610.svg", "2611.svg", "2612.svg"] ∧
    ((saveCalendarSvgs 2026).map Prod.fst).contains "2701.svg" = false ∧
    (saveCalendarSvgs 2026).map Prod.snd = [1, 2, 3, 4, 5, 6, 7, 8, 9, 10, 11, 12] ∧
    ((saveCalendarSvgs 2026).map Prod.snd).contains 13 = false := by
  decide

/-- C8: the page composed for logical month 13 of target year 2026 resolves
to real (2027, 1), references image `2701.jpg`, shows the logical ordinal 13
verbatim as its large month label, and its next-month mini preview is logical
(2027, 2) displayed with the resolved real month number 2. -/
theorem month13_page_composition (hd : HolidayMap) :
    interpretMonth13 2026 13 = (2027, 1) ∧
    (generateCalendarPage hd 2026 13).actualYear = 2027 ∧
    (generateCalendarPage hd 2026 13).actualMonth = 1 ∧
    (generateCalendarPage hd 2026 13).jpgFilename = "2701.jpg" ∧
    (generateCalendarPage hd 2026 13).monthLabel = 13 ∧
    getNextMonth 2026 13 = (2027, 2) ∧
    (generateCalendarPage hd 2026 13).nextMiniLabel = 2 :=
  ⟨by decide, rfl, rfl, rfl, rfl, by decide, rfl⟩

end CalendarGen
